import Mathlib

/-!
Verification development for the DataQuest repository.

The development shallowly embeds the three Python modules the claims are
about:

* `scripts/publish_open_dataset.py` — the listing diff (`compare_files`)
  and the reconciliation driver (`main`, embedded as `publish_main`);
* `scripts/fetch_data_from_api.py` (and its near-identical sibling
  `fetch_data_from_api.py`) — the ingestion task, embedded as
  `fetch_and_store_population_data`;
* `orchestrator_lambda.py` — trigger classification (`_is_s3_put_event`,
  embedded as `isS3PutEvent`), the S3-event dispatcher (`_handle_s3_event`,
  embedded as `stepRecord`/`processRecords`/`handle_s3_event`) and the
  orchestrator entry point (`lambda_handler`).

Python runtime behaviour that the code relies on is embedded explicitly:
dynamic values are a `PyVal` inductive, a raised exception is a `PyErr`
value threaded through `Except` (or an `Option PyErr` component when the
partially built state matters), `dict.get` / subscription / iteration have
the corresponding partial semantics.  External collaborators (S3, HTTP,
SQS, papermill) enter as explicit parameters giving the outcome of each
collaborator call, exactly at the call sites the source uses them.
Wall-clock timestamps are passed in as opaque strings or omitted where no
claim mentions them.
-/

namespace DataQuest

/-! ### A small model of the Python dynamic values the event paths handle -/

/-- Python values occurring in Lambda event payloads and results. -/
inductive PyVal where
  | none
  | int (n : Int)
  | str (s : String)
  | list (xs : List PyVal)
  | dict (entries : List (String × PyVal))

/-- Python exceptions distinguished by the embedded code paths. -/
inductive PyErr where
  | typeError
  | attributeError
  | keyError (k : String)
  | other (msg : String)
deriving DecidableEq

/-- Association-list lookup, the model of `d[k]` / `d.get(k)` on a `dict`
whose keys are unique (a Python `dict` cannot hold a key twice). -/
def alookup {α : Type} (k : String) : List (String × α) → Option α
  | [] => Option.none
  | p :: rest => if p.1 = k then some p.2 else alookup k rest

/-- Python `v == s` against a string literal: true exactly when `v` is that
string (comparison between values of different types is `False`, not an
error). -/
def isStrEq (v : PyVal) (s : String) : Bool :=
  match v with
  | .str t => t = s
  | _ => false

/-- Python iteration `for x in v`: lists yield their elements, strings
their characters, dicts their keys; other values raise `TypeError`. -/
def pyIter : PyVal → Except PyErr (List PyVal)
  | .list xs => .ok xs
  | .str s => .ok (s.data.map (fun c => .str ⟨[c]⟩))
  | .dict d => .ok (d.map (fun p => .str p.1))
  | _ => .error .typeError

/-- Python `v.get(k, dflt)`: defined on dicts, `AttributeError` otherwise. -/
def dictGet (v : PyVal) (k : String) (dflt : PyVal) : Except PyErr PyVal :=
  match v with
  | .dict d => .ok ((alookup k d).getD dflt)
  | _ => .error .attributeError

/-- Python `v[k]` with a string key: `KeyError` when a dict misses the key,
`TypeError` on non-dict values. -/
def pySubscript (v : PyVal) (k : String) : Except PyErr PyVal :=
  match v with
  | .dict d =>
    match alookup k d with
    | some x => .ok x
    | Option.none => .error (.keyError k)
  | _ => .error .typeError

/-- Python `str(v)` as used inside f-strings.  Composite values get a
placeholder rendering; the event paths only ever format strings. -/
def pyToStr : PyVal → String
  | .str s => s
  | .int n => toString n
  | .none => "None"
  | .list _ => "[...]"
  | .dict _ => "\x7b...\x7d"

/-! ### String helpers mirroring the Python string methods used -/

/-- Python `s.startswith(pre)`. -/
def pyStartswith (s pre : String) : Bool := pre.data.isPrefixOf s.data

/-- Python `s.endswith(suf)`. -/
def pyEndswith (s suf : String) : Bool := suf.data.isSuffixOf s.data

/-- Python `needle in hay` on strings (substring containment). -/
def containsSub (needle : List Char) (hay : List Char) : Bool :=
  match hay with
  | [] => needle.isEmpty
  | _ :: t => needle.isPrefixOf hay || containsSub needle t

/-- Value of a hexadecimal digit character, if it is one. -/
def hexDigit? (c : Char) : Option Nat :=
  if '0' ≤ c ∧ c ≤ '9' then some (c.toNat - '0'.toNat)
  else if 'a' ≤ c ∧ c ≤ 'f' then some (c.toNat - 'a'.toNat + 10)
  else if 'A' ≤ c ∧ c ≤ 'F' then some (c.toNat - 'A'.toNat + 10)
  else Option.none

/-- Character-level body of `urllib.parse.unquote_plus`: `+` becomes a
space and `%xy` with two hex digits becomes the character with that code;
an invalid escape is left verbatim.  (Python additionally reassembles
multi-byte UTF-8 escape runs; S3 object keys in these events are ASCII, on
which the two agree.) -/
def unquoteChars : List Char → List Char
  | [] => []
  | '+' :: rest => ' ' :: unquoteChars rest
  | '%' :: a :: b :: rest =>
    match hexDigit? a, hexDigit? b with
    | some ha, some hb => Char.ofNat (16 * ha + hb) :: unquoteChars rest
    | _, _ => '%' :: unquoteChars (a :: b :: rest)
  | c :: rest => c :: unquoteChars rest

/-- `urllib.parse.unquote_plus` on a string. -/
def unquote_plus (s : String) : String := ⟨unquoteChars s.data⟩

/-! ### Storage operations (shared trace vocabulary)

Both scripts talk to the object store through `put_object` / `delete_object`
calls; the embeddings record the data-object calls they issue as a trace. -/

/-- A storage call issued against the data objects of the target bucket. -/
inductive StorageOp where
  | put (key : String)
  | delete (key : String)
deriving DecidableEq

/-! ### `scripts/fetch_data_from_api.py` — the ingestion task

`fetch_and_store_population_data` wraps its whole body in
`try/except requests.RequestException/except json.JSONDecodeError/except
Exception`, each of which logs and re-raises.  `requests.get` is modelled
by an `HttpOutcome` (transport failure or a final response),
`response.raise_for_status()` raises `requests.HTTPError` (a
`RequestException`) exactly for status codes 400–599, `response.json()` is
the `parseJson` collaborator, `put_object` and the subsequent best-effort
summary logging (which subscripts into the payload and can itself raise)
are outcome parameters.  `src/fetch_data_from_api.py` has the same
structure around the same lines and is covered by the same embedding. -/

/-- Outcome of the `requests.get` call. -/
inductive HttpOutcome where
  | transportError
  | response (status : Nat) (body : String)

/-- The exceptions `fetch_and_store_population_data` re-raises, grouped the
way its `except` clauses group them. -/
inductive ApiError where
  | requestException
  | jsonDecodeError
  | unexpected (e : PyErr)
deriving DecidableEq

/-- Result of one ingestion run: the data-object puts issued and the
exception that propagated out, if any (the function returns `None`). -/
structure FetchRun where
  ops : List StorageOp
  raised : Option ApiError
deriving DecidableEq

/-- Embedding of `fetch_and_store_population_data` (both copies). -/
def fetch_and_store_population_data (httpGet : HttpOutcome)
    (parseJson : String → Option PyVal)
    (putOutcome : Except PyErr Unit)
    (statsOutcome : Except PyErr Unit)
    (ts : String) : FetchRun :=
  match httpGet with
  | .transportError => ⟨[], some .requestException⟩
  | .response status body =>
    if 400 ≤ status ∧ status < 600 then
      ⟨[], some .requestException⟩
    else
      match parseJson body with
      | Option.none => ⟨[], some .jsonDecodeError⟩
      | some _data =>
        let key := "population_data/population_data_" ++ ts ++ ".json"
        match putOutcome with
        | .error e => ⟨[.put key], some (.unexpected e)⟩
        | .ok _ =>
          match statsOutcome with
          | .error e => ⟨[.put key], some (.unexpected e)⟩
          | .ok _ => ⟨[.put key], Option.none⟩

/-! ### `scripts/publish_open_dataset.py` — listings and the diff -/

/-- One file's metadata in a listing (`size`, `last_modified` and the
`url`/`key` locator the script stores alongside them). -/
structure FileRec where
  size : Int
  last_modified : String
  locator : String
deriving DecidableEq

/-- A listing: the `filename -> metadata` dict built by `get_website_files`
or `get_s3_files`.  Name uniqueness is a dict invariant; none of the
verified facts depend on it. -/
abbrev Listing := List (String × FileRec)

/-- `set(files.keys())`. -/
def keysOf (l : Listing) : Finset String := (l.map Prod.fst).toFinset

/-- `files[k]['size']`, as an `Option` (`some` exactly when `k` is a key). -/
def size? (l : Listing) (k : String) : Option Int := (alookup k l).map FileRec.size

/-- Embedding of `compare_files`: `(new_files, deleted_files,
modified_files)` as pure set algebra over the two listings. -/
def compare_files (website_files s3_files : Listing) :
    Finset String × Finset String × Finset String :=
  let website_filenames := keysOf website_files
  let s3_filenames := keysOf s3_files
  (website_filenames \ s3_filenames,
   s3_filenames \ website_filenames,
   (website_filenames ∩ s3_filenames).filter
     (fun filename => size? website_files filename ≠ size? s3_files filename))

/-- The `new_files` component of the diff. -/
def new_files (wf sf : Listing) : Finset String := (compare_files wf sf).1

/-- The `deleted_files` component of the diff. -/
def deleted_files (wf sf : Listing) : Finset String := (compare_files wf sf).2.1

/-- The `modified_files` component of the diff. -/
def modified_files (wf sf : Listing) : Finset String := (compare_files wf sf).2.2

/-- The implicit fourth class of the diff: names present in both listings
with equal size (the spec's "unchanged" set). -/
def unchanged_files (wf sf : Listing) : Finset String :=
  (keysOf wf ∩ keysOf sf).filter (fun k => size? wf k = size? sf k)

/-! ### `scripts/publish_open_dataset.py` — the reconciliation run (`main`)

`main` raises `EnvironmentError` when credentials are missing, builds the
two listings (each fetch returns `{}` on failure — the listings appear here
as inputs), returns early when either is empty, otherwise walks the three
diff classes uploading / deleting / re-uploading with a `try/except` around
every per-file transfer, and wraps the whole walk in one more
`try/except Exception`.  Every `return` in `main` is bare, so the function
always returns `None`.  `S3Logger.save_logs` runs in the `finally` block.

Python iterates the diff *sets* in unspecified order; the embedding fixes
the deterministic order in which the names occur in the listing being
walked (`website_files` for new/modified, `s3_files` for deleted), which
enumerates exactly the same sets.  Per-file `put_object` / `delete_object`
failures are caught and logged with no effect on control flow, so only the
download outcome (which gates whether the put is issued) is a parameter. -/

/-- Names of `new_files` in listing order. -/
def new_names (wf sf : Listing) : List String :=
  (wf.map Prod.fst).filter (fun k => (alookup k sf).isNone)

/-- Names of `deleted_files` in listing order. -/
def deleted_names (wf sf : Listing) : List String :=
  (sf.map Prod.fst).filter (fun k => (alookup k wf).isNone)

/-- Names of `modified_files` in listing order. -/
def modified_names (wf sf : Listing) : List String :=
  (wf.map Prod.fst).filter (fun k =>
    match alookup k wf, alookup k sf with
    | some a, some b => decide (a.size ≠ b.size)
    | _, _ => false)

/-- Inputs of one `main` run: whether the required environment variables
are present, the two fetched listings, and the outcome of downloading each
source URL (`session.get` + `raise_for_status`). -/
structure PubDeps where
  envOk : Bool
  website_files : Listing
  s3_files : Listing
  download : String → Except PyErr Unit

/-- Result of one `main` run: the data-object storage calls issued, whether
the log object was written (`save_logs`, in `finally`), and the Python
return value. -/
structure MainRun where
  ops : List StorageOp
  logSaved : Bool
  retval : PyVal

/-- The upload step for one new/modified filename: download the source URL;
on success issue `put_object` under `bls_data/<filename>` (whose own
failure is caught and logged); on failure log and move on. -/
def uploadOp (download : String → Except PyErr Unit) (wf : Listing) (fn : String) :
    List StorageOp :=
  match alookup fn wf with
  | some r =>
    match download r.locator with
    | .ok _ => [StorageOp.put ("bls_data/" ++ fn)]
    | .error _ => []
  | Option.none => []

/-- The delete step for one deleted filename: issue `delete_object` on the
stored key (its failure is caught and logged). -/
def deleteOp (sf : Listing) (fn : String) : List StorageOp :=
  match alookup fn sf with
  | some r => [StorageOp.delete r.locator]
  | Option.none => []

/-- Embedding of `main` in `publish_open_dataset.py`. -/
def publish_main (d : PubDeps) : Except PyErr MainRun :=
  if d.envOk = false then .error (.other "Missing required environment variables")
  else
    let wf := d.website_files
    let sf := d.s3_files
    if wf.isEmpty || sf.isEmpty then
      .ok ⟨[], true, .none⟩
    else
      let ops :=
        ((new_names wf sf).map (uploadOp d.download wf)).flatten
          ++ ((deleted_names wf sf).map (deleteOp sf)).flatten
          ++ ((modified_names wf sf).map (uploadOp d.download wf)).flatten
      .ok ⟨ops, true, .none⟩

/-! ### `orchestrator_lambda.py` — trigger classification -/

/-- Body of the record loop in `_is_s3_put_event`: one record's test
`rec.get("eventSource") == "aws:s3" and "ObjectCreated" in
rec.get("eventName", "")` with Python's short-circuit `and`. -/
def recordMatches (rec : PyVal) : Except PyErr Bool := do
  let src ← dictGet rec "eventSource" .none
  if isStrEq src "aws:s3" then
    let en ← dictGet rec "eventName" (.str "")
    match en with
    | .str s => pure (containsSub "ObjectCreated".data s.data)
    | _ => .error .typeError
  else
    pure false

/-- The record loop of `_is_s3_put_event` (early `return True`). -/
def anyRecordMatches : List PyVal → Except PyErr Bool
  | [] => pure false
  | r :: rs => do
    let b ← recordMatches r
    if b then pure true else anyRecordMatches rs

/-- Embedding of `_is_s3_put_event`. -/
def isS3PutEvent (event : PyVal) : Except PyErr Bool :=
  match event with
  | .dict d =>
    match alookup "Records" d with
    | Option.none => pure false
    | some v => do
      let recs ← pyIter v
      anyRecordMatches recs
  | _ => pure false

/-- The two workflow branches of the orchestrator (the spec's
`TriggerEvent` variants). -/
inductive Trigger where
  | storageCreated
  | scheduled
deriving DecidableEq

/-- The classification decision `lambda_handler` takes: `StorageCreated`
when `_is_s3_put_event` returns `True`, `Scheduled` when it returns
`False`; an exception from `_is_s3_put_event` propagates. -/
def classify (event : PyVal) : Except PyErr Trigger :=
  match isS3PutEvent event with
  | .error e => .error e
  | .ok true => .ok .storageCreated
  | .ok false => .ok .scheduled

/-! ### `orchestrator_lambda.py` — the S3-event dispatcher -/

/-- The parameters `_handle_s3_event` passes to the notebook-execution
collaborator for one matched object (the wall-clock `run_timestamp` is
omitted).  `trigger_bucket` is the raw value from the record. -/
structure ExecParams where
  inputJsonUri : String
  triggerBucket : PyVal
  triggerKey : String

/-- What `_execute_notebook_from_s3` returns to the dispatcher (the
`executedAt` wall-clock stamp is omitted). -/
structure ExecMeta where
  outputUploaded : Bool
  outputS3Uri : Option String
deriving DecidableEq

/-- One `skipped` entry: the raw bucket value, the decoded key, and the
reason string. -/
structure SkipEntry where
  bucket : PyVal
  key : String
  reason : String

/-- One `processed` entry. -/
structure ProcEntry where
  inputJsonUri : String
  meta : ExecMeta

/-- The dispatcher's loop state: the `processed` and `skipped` lists the
source accumulates, plus an instrumentation trace of every call made to
the notebook-execution collaborator. -/
structure DispatchState where
  processed : List ProcEntry
  skipped : List SkipEntry
  calls : List ExecParams

/-- The collaborators and configuration `lambda_handler` and
`_handle_s3_event` use.  `exec` is `_execute_notebook_from_s3` with the
configured notebook location (`NOTEBOOK_S3_BUCKET` / `NOTEBOOK_S3_KEY`,
assumed present) baked in; `fetchResult` / `publishResult` are the outcomes
of the two script calls on the scheduled branch; `sendResult` is the
outcome of the `sqs.send_message` call should it be made. -/
structure Deps where
  exec : ExecParams → Except PyErr ExecMeta
  fetchResult : Except PyErr PyVal
  publishResult : Except PyErr PyVal
  queueUrl : String
  sendResult : Except PyErr Unit

/-- The chained subscripts `rec["s3"]["bucket"]["name"]` /
`rec["s3"]["object"]["key"]`, in source order, the key having to be a
string for `unquote_plus`. -/
def getS3Fields (rec : PyVal) : Except PyErr (PyVal × String) := do
  let s3v ← pySubscript rec "s3"
  let bucketv ← pySubscript s3v "bucket"
  let bv ← pySubscript bucketv "name"
  let objv ← pySubscript s3v "object"
  let kv ← pySubscript objv "key"
  match kv with
  | .str k => pure (bv, k)
  | _ => .error .typeError

/-- The f-string `f"s3://\x7bbkt\x7d/\x7bkey\x7d"` for one record (with the
decoded key). -/
def mkUri (bv : PyVal) (rawKey : String) : String :=
  "s3://" ++ pyToStr bv ++ "/" ++ unquote_plus rawKey

/-- One iteration of the record loop in `_handle_s3_event` (`ex` is the
notebook-execution collaborator).  The source's local variables `key` /
`json_uri` are inlined as `unquote_plus rawKey` / `mkUri bv rawKey`.  The
second component is `some e` when the iteration raised `e` — note the
source has no `try/except` around the `_execute_notebook_from_s3` call, so
a collaborator exception becomes a loop-level exception. -/
def stepRecord (ex : ExecParams → Except PyErr ExecMeta) (st : DispatchState) (rec : PyVal) :
    DispatchState × Option PyErr :=
  match dictGet rec "eventSource" .none with
  | .error e => (st, some e)
  | .ok src =>
    if isStrEq src "aws:s3" then
      match getS3Fields rec with
      | .error e => (st, some e)
      | .ok (bv, rawKey) =>
        if !pyStartswith (unquote_plus rawKey) "population_data/" ||
            !pyEndswith (unquote_plus rawKey) ".json" then
          ({st with skipped :=
              st.skipped ++ [⟨bv, unquote_plus rawKey, "not population_data/*.json"⟩]},
           Option.none)
        else
          match ex ⟨mkUri bv rawKey, bv, unquote_plus rawKey⟩ with
          | .error e =>
            ({st with calls := st.calls ++ [⟨mkUri bv rawKey, bv, unquote_plus rawKey⟩]},
             some e)
          | .ok meta =>
            ({st with
                calls := st.calls ++ [⟨mkUri bv rawKey, bv, unquote_plus rawKey⟩],
                processed := st.processed ++ [⟨mkUri bv rawKey, meta⟩]},
             Option.none)
    else
      (st, Option.none)

/-- The record loop of `_handle_s3_event`: records are processed in order
until one raises, in which case the loop aborts with that exception. -/
def processRecords (ex : ExecParams → Except PyErr ExecMeta) :
    List PyVal → DispatchState → DispatchState × Option PyErr
  | [], st => (st, Option.none)
  | r :: rs, st =>
    match stepRecord ex st r with
    | (st1, Option.none) => processRecords ex rs st1
    | (st1, some e) => (st1, some e)

/-- Embedding of `send_sqs_notification`: an empty queue URL logs and
returns without sending; otherwise the SQS send happens with the given
outcome. -/
def send_sqs_notification (queueUrl : String) (sendResult : Except PyErr Unit) :
    Except PyErr Unit :=
  if queueUrl = "" then .ok () else sendResult

/-- The `notified` flag both branches compute: `bool(queue_url)` when the
guarded `send_sqs_notification` call returns, `False` when it raises. -/
def notifiedFlag (queueUrl : String) (sendResult : Except PyErr Unit) : Bool :=
  match send_sqs_notification queueUrl sendResult with
  | .ok _ => decide (queueUrl ≠ "")
  | .error _ => false

/-- The value `_handle_s3_event` returns. -/
structure HandleRes where
  processed : List ProcEntry
  skipped : List SkipEntry
  sqsNotified : Bool

/-- Embedding of `_handle_s3_event`. -/
def handle_s3_event (deps : Deps) (event : PyVal) : Except PyErr HandleRes :=
  match dictGet event "Records" (.list []) with
  | .error e => .error e
  | .ok recsVal =>
    match pyIter recsVal with
    | .error e => .error e
    | .ok recs =>
      match processRecords deps.exec recs ⟨[], [], []⟩ with
      | (_, some e) => .error e
      | (st, Option.none) =>
        .ok ⟨st.processed, st.skipped, notifiedFlag deps.queueUrl deps.sendResult⟩

/-! ### `orchestrator_lambda.py` — the entry point -/

/-- The invocation result: the S3-branch dict or the scheduled-branch dict
(`fetch`, `publish`, `sqsNotified`). -/
inductive LambdaResult where
  | s3 (r : HandleRes)
  | sched (fetch publish : PyVal) (sqsNotified : Bool)

/-- Embedding of `lambda_handler`. -/
def lambda_handler (deps : Deps) (event : PyVal) : Except PyErr LambdaResult :=
  match isS3PutEvent event with
  | .error e => .error e
  | .ok true =>
    match handle_s3_event deps event with
    | .error e => .error e
    | .ok r => .ok (.s3 r)
  | .ok false =>
    match deps.fetchResult with
    | .error e => .error e
    | .ok fetch =>
      match deps.publishResult with
      | .error e => .error e
      | .ok publish =>
        .ok (.sched fetch publish (notifiedFlag deps.queueUrl deps.sendResult))

/-- Overwrite the `sqsNotified` flag of an invocation result. -/
def setNotified (b : Bool) : LambdaResult → LambdaResult
  | .s3 r => .s3 ⟨r.processed, r.skipped, b⟩
  | .sched f p _ => .sched f p b

/-! ### Spec-side definitions

These follow the specification's words, to be compared against the
embedded code. -/

/-- The spec's per-record matching rule: the record's event-source tag is
the object store and its event-name tag contains the object-creation
substring. -/
def recMatchB (r : PyVal) : Bool :=
  match r with
  | .dict d =>
    isStrEq ((alookup "eventSource" d).getD .none) "aws:s3" &&
      (match (alookup "eventName" d).getD (.str "") with
       | .str s => containsSub "ObjectCreated".data s.data
       | _ => false)
  | _ => false

/-- The spec's classification rule: the event carries a (non-empty) record
list with at least one matching record. -/
def specStorageCreated (event : PyVal) : Bool :=
  match event with
  | .dict d =>
    match alookup "Records" d with
    | some (.list rs) => rs.any recMatchB
    | _ => false
  | _ => false

/-- A record the classifier can examine without raising: when its
object-store tag matches, its event-name tag is a string or absent. -/
def recWellFormed (r : PyVal) : Bool :=
  match r with
  | .dict d =>
    if isStrEq ((alookup "eventSource" d).getD .none) "aws:s3" then
      match alookup "eventName" d with
      | some (.str _) => true
      | Option.none => true
      | some _ => false
    else true
  | _ => false

/-- Events the classifier can examine without raising: non-dicts, dicts
without a record list, and dicts whose record list is a list of
well-formed records. -/
def eventWellFormed (event : PyVal) : Bool :=
  match event with
  | .dict d =>
    match alookup "Records" d with
    | Option.none => true
    | some (.list rs) => rs.all recWellFormed
    | some _ => false
  | _ => true

/-- A value of the tally shape `\x7buploaded: n, deleted: n, failed: n\x7d`
the spec says the reconciliation run returns. -/
def isTallyDict (v : PyVal) : Bool :=
  match v with
  | .dict d =>
    (alookup "uploaded" d).isSome && (alookup "deleted" d).isSome &&
      (alookup "failed" d).isSome
  | _ => false

/-- Projection of a listing to everything except the `last_modified` field
(names, sizes, locators, in order): two listings related by it differ at
most in their `last_modified` values. -/
def stripLM (l : Listing) : List (String × Int × String) :=
  l.map (fun p => (p.1, p.2.size, p.2.locator))

/-- Checker for the shape of a completed `main` run: no exception, log
object written, return value `None`. -/
def okNoneRun : Except PyErr MainRun → Bool
  | .ok m => m.logSaved && (match m.retval with | .none => true | _ => false)
  | .error _ => false

/-- The dispatcher's key pattern: decoded key under `population_data/`
with suffix `.json`. -/
def matchKey (p : ExecParams) : Bool :=
  pyStartswith p.triggerKey "population_data/" && pyEndswith p.triggerKey ".json"

/-! ### Concrete fixtures used by counterexamples and witnesses -/

/-- A well-formed S3 `ObjectCreated` record for the given object key. -/
def recC2 (name : String) : PyVal :=
  .dict [("eventSource", .str "aws:s3"), ("eventName", .str "ObjectCreated:Put"),
         ("s3", .dict [("bucket", .dict [("name", .str "data-bucket")]),
                       ("object", .dict [("key", .str name)])])]

/-- A fault-injected notebook-execution collaborator: raises on the first
object's key, succeeds on any other. -/
def execFailFirst : ExecParams → Except PyErr ExecMeta := fun p =>
  if p.triggerKey = "population_data/first.json" then
    .error (.other "papermill execution failed")
  else .ok ⟨false, Option.none⟩

/-- Dependencies with the fault-injected executor. -/
def depsC2 : Deps := ⟨execFailFirst, .ok .none, .ok .none, "https://queue/url", .ok ()⟩

/-- A `StorageCreated` event with two matching records. -/
def eventC2 : PyVal :=
  .dict [("Records", .list
    [recC2 "population_data/first.json", recC2 "population_data/second.json"])]

/-- A reconciliation run with one new file on the website and one stale
file in storage, everything succeeding. -/
def pubDepsC6 : PubDeps :=
  ⟨true, [("a", ⟨100, "Mon", "https://dl/a"⟩)], [("b", ⟨50, "Tue", "bls_data/b"⟩)],
   fun _ => .ok ()⟩

/-- Dependencies whose SQS send raises. -/
def depsC5bad : Deps :=
  ⟨fun _ => .ok ⟨false, Option.none⟩, .ok .none, .ok .none, "https://queue/url",
   .error .typeError⟩

/-- An object-store record whose key does not match the dispatch pattern. -/
def recC8 : PyVal :=
  .dict [("eventSource", .str "aws:s3"), ("eventName", .str "ObjectCreated:Put"),
         ("s3", .dict [("bucket", .dict [("name", .str "data-bucket")]),
                       ("object", .dict [("key", .str "other/x.json")])])]

/-! ## Shared reduction lemmas -/

/-- Bind of a successful `Except` computation. -/
theorem exbind_ok {α β : Type} (a : α) (f : α → Except PyErr β) :
    (Except.ok a >>= f) = f a := rfl

/-- Bind of a failed `Except` computation. -/
theorem exbind_err {α β : Type} (e : PyErr) (f : α → Except PyErr β) :
    ((Except.error e : Except PyErr α) >>= f) = Except.error e := rfl

/-- `pure` in the `Except` monad. -/
theorem expure {α : Type} (a : α) : (pure a : Except PyErr α) = Except.ok a := rfl

/-! ## C1 — the diff partitions the union of the key sets -/

/-- C1: for every pair of listings and every name, the name belongs to
`keys(A) ∪ keys(B)` exactly when it belongs to one of the four classes
`new_files` / `deleted_files` / `modified_files` / `unchanged`, and it
never belongs to two of them: the three sets `compare_files` returns,
together with the implicit unchanged set, partition the union of the key
sets. -/
theorem compare_files_partition (wf sf : Listing) (k : String) :
    (k ∈ keysOf wf ∪ keysOf sf ↔
      k ∈ new_files wf sf ∨ k ∈ deleted_files wf sf ∨ k ∈ modified_files wf sf ∨
        k ∈ unchanged_files wf sf)
    ∧ ¬(k ∈ new_files wf sf ∧ k ∈ deleted_files wf sf)
    ∧ ¬(k ∈ new_files wf sf ∧ k ∈ modified_files wf sf)
    ∧ ¬(k ∈ new_files wf sf ∧ k ∈ unchanged_files wf sf)
    ∧ ¬(k ∈ deleted_files wf sf ∧ k ∈ modified_files wf sf)
    ∧ ¬(k ∈ deleted_files wf sf ∧ k ∈ unchanged_files wf sf)
    ∧ ¬(k ∈ modified_files wf sf ∧ k ∈ unchanged_files wf sf) := by
  simp only [new_files, deleted_files, modified_files, unchanged_files, compare_files,
    Finset.mem_union, Finset.mem_sdiff, Finset.mem_inter, Finset.mem_filter]
  tauto

/-! ## C2 — the dispatcher does not isolate a record's execution failure -/

/-- C2: with a fault-injected notebook-execution collaborator that raises
on the first of two matching records, the record loop stops with that
exception after having called the collaborator only for the first record
(the call trace has exactly one entry), records no outcome for either
record, and the exception propagates out of `_handle_s3_event` and
`lambda_handler` — the batch is aborted, contradicting the claimed
isolation. -/
theorem dispatch_aborts_on_exec_failure :
    processRecords execFailFirst
        [recC2 "population_data/first.json", recC2 "population_data/second.json"]
        ⟨[], [], []⟩ =
      (⟨[], [],
        [⟨"s3://data-bucket/population_data/first.json", .str "data-bucket",
          "population_data/first.json"⟩]⟩,
       some (.other "papermill execution failed")) ∧
    handle_s3_event depsC2 eventC2 = .error (.other "papermill execution failed") ∧
    lambda_handler depsC2 eventC2 = .error (.other "papermill execution failed") :=
  ⟨rfl, rfl, rfl⟩

/-! ## C3 — trigger classification is not total -/

/-- C3 counterexample: an event whose `Records` list contains a non-dict
entry makes `_is_s3_put_event` call `.get` on a non-dict, so classification
raises `AttributeError` instead of returning `Scheduled`; the claim that
classification never raises is false. -/
theorem classify_raises_on_malformed_record_list :
    classify (.dict [("Records", .list [.int 0])]) = .error .attributeError := rfl

/-- A well-formed record is examined without raising and matches exactly
when the spec's per-record rule says so. -/
theorem recordMatches_wellFormed (r : PyVal) (hr : recWellFormed r = true) :
    recordMatches r = .ok (recMatchB r) := by
  cases r
  case dict d =>
    simp only [recordMatches, dictGet, exbind_ok, recMatchB]
    by_cases hsrc : isStrEq ((alookup "eventSource" d).getD .none) "aws:s3" = true
    · simp only [recWellFormed, hsrc, if_true] at hr
      simp only [hsrc, if_true, Bool.true_and]
      rcases he : alookup "eventName" d with _ | v
      · simp [he, exbind_ok, expure]
      · rw [he] at hr
        cases v <;> simp_all [exbind_ok, expure]
    · simp [hsrc, expure]
  all_goals simp [recWellFormed] at hr

/-- On a list of well-formed records the classification loop is total and
computes "some record matches". -/
theorem anyRecordMatches_wellFormed (rs : List PyVal) (h : rs.all recWellFormed = true) :
    anyRecordMatches rs = .ok (rs.any recMatchB) := by
  induction rs with
  | nil => rfl
  | cons r rs ih =>
    simp only [List.all_cons, Bool.and_eq_true] at h
    obtain ⟨hr, hrs⟩ := h
    simp only [anyRecordMatches, recordMatches_wellFormed r hr, exbind_ok, List.any_cons]
    cases hb : recMatchB r
    · simpa [hb, expure] using ih hrs
    · simp [hb, expure]

/-- C3 amended: on well-formed events — non-dicts, dicts without a
`Records` key, and dicts whose `Records` is a list of records that are
dicts with a string (or absent) event-name tag whenever their event-source
tag is the object store — classification never raises, and it returns
`StorageCreated` exactly when the record list is non-empty and contains at
least one matching record, `Scheduled` otherwise.  (On other events, such
as a `Records` list holding a non-dict entry, it raises, per the
counterexample.) -/
theorem classify_total_on_wellformed (event : PyVal) (h : eventWellFormed event = true) :
    classify event =
      .ok (if specStorageCreated event then Trigger.storageCreated else Trigger.scheduled) := by
  cases event
  case dict d =>
    rcases hrec : alookup "Records" d with _ | v
    · simp [classify, isS3PutEvent, hrec, specStorageCreated, expure]
    · cases v
      case list rs =>
        have hall : rs.all recWellFormed = true := by
          simpa [eventWellFormed, hrec] using h
        have hany := anyRecordMatches_wellFormed rs hall
        cases hb : rs.any recMatchB <;>
          simp [classify, isS3PutEvent, hrec, pyIter, specStorageCreated, hany, hb,
            exbind_ok, expure]
      all_goals simp [eventWellFormed, hrec] at h
  all_goals simp [classify, isS3PutEvent, specStorageCreated, expure]

/-- Witness for C3's amended theorem at a concrete well-formed event. -/
theorem classify_total_on_wellformed_witness :
    eventWellFormed (.dict [("Records", .list
        [.dict [("eventSource", .str "aws:s3"), ("eventName", .str "ObjectCreated:Put")]])]) = true ∧
      classify (.dict [("Records", .list
        [.dict [("eventSource", .str "aws:s3"), ("eventName", .str "ObjectCreated:Put")]])]) =
        .ok (if specStorageCreated (.dict [("Records", .list
          [.dict [("eventSource", .str "aws:s3"), ("eventName", .str "ObjectCreated:Put")]])])
          then Trigger.storageCreated else Trigger.scheduled) :=
  ⟨rfl, classify_total_on_wellformed _ rfl⟩

/-! ## C4 — equality is size-only -/

/-- Listings equal up to `last_modified` have the same sizes at every
name. -/
theorem size?_congr {A B : Listing} (h : stripLM A = stripLM B) (k : String) :
    size? A k = size? B k := by
  induction A generalizing B with
  | nil =>
    cases B with
    | nil => rfl
    | cons b bs => simp [stripLM] at h
  | cons a as ih =>
    cases B with
    | nil => simp [stripLM] at h
    | cons b bs =>
      simp only [stripLM, List.map_cons, List.cons.injEq, Prod.mk.injEq] at h
      obtain ⟨⟨h1, h2, _⟩, h4⟩ := h
      simp only [size?, alookup, h1]
      by_cases hbk : b.1 = k
      · simp [hbk, h2]
      · simpa [hbk, size?] using ih h4

/-- Listings equal up to `last_modified` have the same key set. -/
theorem keysOf_congr {A B : Listing} (h : stripLM A = stripLM B) :
    keysOf A = keysOf B := by
  have hm : A.map Prod.fst = B.map Prod.fst := by
    have ha : A.map Prod.fst = (stripLM A).map (fun q => q.1) := by
      simp [stripLM, List.map_map]
    have hb : B.map Prod.fst = (stripLM B).map (fun q => q.1) := by
      simp [stripLM, List.map_map]
    rw [ha, hb, h]
  simp [keysOf, hm]

/-- C4: a name whose sizes agree in both listings is never in
`modified_files`, and the whole diff is unchanged when the
`last_modified` fields of either listing are modified arbitrarily (the
listings related by `stripLM` equality). -/
theorem modified_size_only (wf sf wf' sf' : Listing) (k : String)
    (hk : size? wf k = size? sf k)
    (h1 : stripLM wf = stripLM wf') (h2 : stripLM sf = stripLM sf') :
    k ∉ modified_files wf sf ∧ compare_files wf sf = compare_files wf' sf' := by
  constructor
  · simp only [modified_files, compare_files, Finset.mem_filter, Finset.mem_inter]
    intro hmem
    exact hmem.2 hk
  · have hsw : ∀ x, size? wf x = size? wf' x := size?_congr h1
    have hss : ∀ x, size? sf x = size? sf' x := size?_congr h2
    have hkw : keysOf wf = keysOf wf' := keysOf_congr h1
    have hks : keysOf sf = keysOf sf' := keysOf_congr h2
    simp only [compare_files, hkw, hks]
    refine Prod.ext rfl (Prod.ext rfl ?_)
    apply Finset.filter_congr
    intro x _
    rw [hsw x, hss x]

/-- Witness for C4 at concrete listings that differ only in
`last_modified`. -/
theorem modified_size_only_witness :
    "a" ∉ modified_files [("a", ⟨100, "Mon", "u"⟩)] [("a", ⟨100, "Tue", "k"⟩)] ∧
      compare_files [("a", ⟨100, "Mon", "u"⟩)] [("a", ⟨100, "Tue", "k"⟩)] =
        compare_files [("a", ⟨100, "Wed", "u"⟩)] [("a", ⟨100, "Thu", "k"⟩)] :=
  modified_size_only _ _ _ _ "a" (by decide) (by decide) (by decide)

/-! ## C5 — notification failure degrades to `notified = false` -/

/-- C5: when the SQS send raises, `lambda_handler` returns exactly the
result of the same invocation with a non-failing send, except that its
`sqsNotified` flag is forced to `false` — the exception is not propagated
and the fetch/publish (or processed/skipped) components are unchanged, on
both branches. -/
theorem notification_failure_degrades (deps : Deps) (e : PyErr) (event : PyVal)
    (h : deps.sendResult = .error e) :
    lambda_handler deps event =
      (lambda_handler {deps with sendResult := .ok ()} event).map (setNotified false) := by
  have hnot : notifiedFlag deps.queueUrl deps.sendResult = false := by
    unfold notifiedFlag send_sqs_notification
    rw [h]
    by_cases hq : deps.queueUrl = "" <;> simp [hq]
  unfold lambda_handler
  cases hclass : isS3PutEvent event with
  | error err => simp [Except.map]
  | ok b =>
    cases b
    · cases hf : deps.fetchResult with
      | error err => simp [Except.map]
      | ok fv =>
        cases hp : deps.publishResult with
        | error err => simp [Except.map]
        | ok pv => simp [Except.map, setNotified, hnot]
    · unfold handle_s3_event
      cases hg : dictGet event "Records" (.list []) with
      | error err => simp [hg, Except.map]
      | ok recsVal =>
        cases hi : pyIter recsVal with
        | error err => simp [hg, hi, Except.map]
        | ok recs =>
          cases hpr : processRecords deps.exec recs ⟨[], [], []⟩ with
          | mk st err =>
            cases err with
            | none => simp [hg, hi, hpr, Except.map, setNotified, hnot]
            | some e2 => simp [hg, hi, hpr, Except.map]

/-- Witness for C5 at a concrete scheduled invocation whose send raises. -/
theorem notification_failure_degrades_witness :
    lambda_handler depsC5bad (.dict []) =
      (lambda_handler {depsC5bad with sendResult := .ok ()} (.dict [])).map
        (setNotified false) :=
  notification_failure_degrades depsC5bad .typeError (.dict []) rfl

/-! ## C6 — the reconciliation run returns `None`, not a tally, and never
raises once the environment check passes -/

/-- C6 counterexample: a run over two non-empty listings with every
per-file operation succeeding returns Python `None` — not a dict of the
`\x7buploaded, deleted, failed\x7d` shape — and a run for which a listing
could not be produced (both empty) returns normally instead of raising. -/
theorem publish_returns_none_not_tally :
    publish_main pubDepsC6 =
      .ok ⟨[StorageOp.put "bls_data/a", StorageOp.delete "bls_data/b"], true, .none⟩ ∧
    isTallyDict .none = false ∧
    publish_main ⟨true, [], [], fun _ => .ok ()⟩ = .ok ⟨[], true, .none⟩ :=
  ⟨rfl, rfl, rfl⟩

/-- C6 amended: whenever the required environment variables are present,
the reconciliation run raises nothing — whatever the listings and whatever
the outcome of every per-file transfer (each failure is caught, logged and
skipped) — writes the log object, and returns `None`; no tally is
produced. -/
theorem publish_never_raises (d : PubDeps) (henv : d.envOk = true) :
    okNoneRun (publish_main d) = true := by
  unfold publish_main
  rw [henv]
  by_cases h : (d.website_files.isEmpty || d.s3_files.isEmpty) = true <;>
    simp [h, okNoneRun]

/-- Witness for C6's amended theorem at a concrete run. -/
theorem publish_never_raises_witness : okNoneRun (publish_main pubDepsC6) = true :=
  publish_never_raises pubDepsC6 rfl

/-! ## C7 — which responses abort the ingestion -/

/-- C7 counterexample: a non-2xx response — status 300 with a JSON body —
does not raise: `raise_for_status` only raises for 4xx/5xx, so the payload
is parsed and the object is stored, contrary to the claim that every
non-2xx response raises a fetch error. -/
theorem fetch_stores_on_status_300 :
    fetch_and_store_population_data (.response 300 "\x7b\x7d") (fun _ => some (.dict []))
        (.ok ()) (.ok ()) "20260101_000000" =
      ⟨[StorageOp.put "population_data/population_data_20260101_000000.json"], Option.none⟩ := by
  decide

/-- C7 amended: a transport error or a 4xx/5xx response raises the fetch
error (`RequestException`), and malformed JSON in a non-4xx/5xx response
raises the decode error (`JSONDecodeError`); both propagate out of the
ingestion task and no object is stored in either case. -/
theorem fetch_error_no_store (s : Nat) (body ts : String)
    (parseJson : String → Option PyVal) (putOutcome statsOutcome : Except PyErr Unit)
    (h : (400 ≤ s ∧ s < 600) ∨ parseJson body = Option.none) :
    fetch_and_store_population_data (.response s body) parseJson putOutcome statsOutcome ts =
      ⟨[], some (if 400 ≤ s ∧ s < 600 then .requestException else .jsonDecodeError)⟩ ∧
    fetch_and_store_population_data .transportError parseJson putOutcome statsOutcome ts =
      ⟨[], some .requestException⟩ := by
  constructor
  · by_cases hs : 400 ≤ s ∧ s < 600
    · simp [fetch_and_store_population_data, hs]
    · have hp : parseJson body = Option.none := by tauto
      simp [fetch_and_store_population_data, hs, hp]
  · rfl

/-- Witness for C7's amended theorem at a concrete 404 response. -/
theorem fetch_error_no_store_witness :
    ((400 ≤ 404 ∧ 404 < 600) ∨ (fun _ => (Option.none : Option PyVal)) "x" = Option.none) ∧
    fetch_and_store_population_data (.response 404 "x") (fun _ => Option.none)
        (.ok ()) (.ok ()) "t" =
      ⟨[], some (if 400 ≤ 404 ∧ 404 < 600 then .requestException else .jsonDecodeError)⟩ :=
  ⟨Or.inl (by decide),
   (fetch_error_no_store 404 "x" "t" (fun _ => Option.none) (.ok ()) (.ok ())
     (Or.inl (by decide))).1⟩

/-! ## C8 — the dispatcher's key filter -/

/-- One loop iteration either leaves the skipped/calls lists unchanged,
appends one skip entry, or appends one collaborator call whose key matches
the dispatch pattern. -/
theorem stepRecord_state (ex : ExecParams → Except PyErr ExecMeta)
    (st : DispatchState) (rec : PyVal) :
    ((stepRecord ex st rec).1.skipped = st.skipped ∧ (stepRecord ex st rec).1.calls = st.calls)
    ∨ (∃ en, (stepRecord ex st rec).1.skipped = st.skipped ++ [en] ∧
        (stepRecord ex st rec).1.calls = st.calls)
    ∨ (∃ p, matchKey p = true ∧ (stepRecord ex st rec).1.skipped = st.skipped ∧
        (stepRecord ex st rec).1.calls = st.calls ++ [p]) := by
  unfold stepRecord
  cases dictGet rec "eventSource" .none with
  | error e => exact Or.inl ⟨rfl, rfl⟩
  | ok src =>
    dsimp only
    by_cases hsrc : isStrEq src "aws:s3" = true
    · rw [if_pos hsrc]
      cases getS3Fields rec with
      | error e => exact Or.inl ⟨rfl, rfl⟩
      | ok pr =>
        obtain ⟨bv, rawKey⟩ := pr
        dsimp only
        by_cases hg : (!pyStartswith (unquote_plus rawKey) "population_data/" ||
            !pyEndswith (unquote_plus rawKey) ".json") = true
        · rw [if_pos hg]
          exact Or.inr (Or.inl ⟨_, rfl, rfl⟩)
        · rw [if_neg hg]
          have hmk : matchKey ⟨mkUri bv rawKey, bv, unquote_plus rawKey⟩ = true := by
            simp at hg
            simp [matchKey, hg]
          cases ex ⟨mkUri bv rawKey, bv, unquote_plus rawKey⟩ with
          | error e => exact Or.inr (Or.inr ⟨_, hmk, rfl, rfl⟩)
          | ok meta => exact Or.inr (Or.inr ⟨_, hmk, rfl, rfl⟩)
    · rw [if_neg hsrc]
      exact Or.inl ⟨rfl, rfl⟩

/-- Skip entries are never removed by a loop iteration. -/
theorem stepRecord_skipped_mono (ex : ExecParams → Except PyErr ExecMeta)
    (st : DispatchState) (rec : PyVal) (x : SkipEntry) (hx : x ∈ st.skipped) :
    x ∈ (stepRecord ex st rec).1.skipped := by
  rcases stepRecord_state ex st rec with ⟨hs, _⟩ | ⟨en, hs, _⟩ | ⟨p, _, hs, _⟩ <;>
    simp [hs, hx]

/-- A loop iteration only ever adds collaborator calls whose key matches
the dispatch pattern. -/
theorem stepRecord_calls_all (ex : ExecParams → Except PyErr ExecMeta)
    (st : DispatchState) (rec : PyVal) (h : st.calls.all matchKey = true) :
    ((stepRecord ex st rec).1.calls.all matchKey) = true := by
  rcases stepRecord_state ex st rec with ⟨_, hc⟩ | ⟨en, _, hc⟩ | ⟨p, hp, _, hc⟩
  · simp [hc, h]
  · simp [hc, h]
  · simp [hc, h, hp, List.all_append]

/-- Skip entries survive the rest of the record loop. -/
theorem processRecords_skipped_mono (ex : ExecParams → Except PyErr ExecMeta)
    (recs : List PyVal) (st : DispatchState) (x : SkipEntry) (hx : x ∈ st.skipped) :
    x ∈ (processRecords ex recs st).1.skipped := by
  induction recs generalizing st with
  | nil => exact hx
  | cons r rs ih =>
    have hmem := stepRecord_skipped_mono ex st r x hx
    simp only [processRecords]
    cases hstep : stepRecord ex st r with
    | mk st1 err =>
      rw [hstep] at hmem
      cases err with
      | none => exact ih st1 hmem
      | some e => exact hmem

/-- Throughout the loop, every collaborator call's key matches the
dispatch pattern. -/
theorem processRecords_calls_all (ex : ExecParams → Except PyErr ExecMeta)
    (recs : List PyVal) (st : DispatchState) (h : st.calls.all matchKey = true) :
    ((processRecords ex recs st).1.calls.all matchKey) = true := by
  induction recs generalizing st with
  | nil => exact h
  | cons r rs ih =>
    have hstep1 := stepRecord_calls_all ex st r h
    simp only [processRecords]
    cases hstep : stepRecord ex st r with
    | mk st1 err =>
      rw [hstep] at hstep1
      cases err with
      | none => exact ih st1 hstep1
      | some e => exact hstep1

/-- The record loop splits along list append while no exception occurs. -/
theorem processRecords_append (ex : ExecParams → Except PyErr ExecMeta)
    (pre rest : List PyVal) (st : DispatchState) :
    processRecords ex (pre ++ rest) st =
      match processRecords ex pre st with
      | (st1, Option.none) => processRecords ex rest st1
      | (st1, some e) => (st1, some e) := by
  induction pre generalizing st with
  | nil => rfl
  | cons r rs ih =>
    simp only [List.cons_append, processRecords]
    cases hstep : stepRecord ex st r with
    | mk st1 err =>
      cases err with
      | none => exact ih st1
      | some e => rfl

/-- An object-store record with well-formed fields whose decoded key
misses the pattern is appended to `skipped` with the reason string. -/
theorem stepRecord_skips (ex : ExecParams → Except PyErr ExecMeta)
    (st : DispatchState) (rec : PyVal) (bv : PyVal) (k : String)
    (hsrc : dictGet rec "eventSource" .none = .ok (.str "aws:s3"))
    (hf : getS3Fields rec = .ok (bv, k))
    (hm : (!pyStartswith (unquote_plus k) "population_data/" ||
           !pyEndswith (unquote_plus k) ".json") = true) :
    stepRecord ex st rec =
      ({st with skipped :=
          st.skipped ++ [⟨bv, unquote_plus k, "not population_data/*.json"⟩]},
       Option.none) := by
  unfold stepRecord
  rw [hsrc]
  simp [isStrEq, hf, hm]

/-- C8: in a `StorageCreated` batch, an object-store record reached by the
loop (every earlier record processed without raising) whose decoded key
does not both start with `population_data/` and end with `.json` is
recorded in `skipped` with a reason, and the notebook-execution
collaborator is only ever called with keys matching both — a non-matching
key is never passed to it. -/
theorem dispatch_filters_nonmatching (ex : ExecParams → Except PyErr ExecMeta)
    (pre post : List PyVal) (rec : PyVal) (bv : PyVal) (k : String) (st1 : DispatchState)
    (hpre : processRecords ex pre ⟨[], [], []⟩ = (st1, Option.none))
    (hsrc : dictGet rec "eventSource" .none = .ok (.str "aws:s3"))
    (hf : getS3Fields rec = .ok (bv, k))
    (hm : ¬(pyStartswith (unquote_plus k) "population_data/" = true ∧
            pyEndswith (unquote_plus k) ".json" = true)) :
    (⟨bv, unquote_plus k, "not population_data/*.json"⟩ : SkipEntry)
        ∈ (processRecords ex (pre ++ rec :: post) ⟨[], [], []⟩).1.skipped
    ∧ ((processRecords ex (pre ++ rec :: post) ⟨[], [], []⟩).1.calls.all matchKey) = true := by
  have hmb : (!pyStartswith (unquote_plus k) "population_data/" ||
      !pyEndswith (unquote_plus k) ".json") = true := by
    cases hs : pyStartswith (unquote_plus k) "population_data/"
    · simp [hs]
    · cases he : pyEndswith (unquote_plus k) ".json"
      · simp [he]
      · exact absurd ⟨hs, he⟩ hm
  constructor
  · rw [processRecords_append, hpre]
    simp only [processRecords, stepRecord_skips ex st1 rec bv k hsrc hf hmb]
    apply processRecords_skipped_mono
    simp
  · exact processRecords_calls_all ex (pre ++ rec :: post) ⟨[], [], []⟩ rfl

/-- Witness for C8 at a concrete mismatching record. -/
theorem dispatch_filters_nonmatching_witness :
    (⟨.str "data-bucket", unquote_plus "other/x.json", "not population_data/*.json"⟩ : SkipEntry)
        ∈ (processRecords (fun _ => .ok ⟨false, Option.none⟩)
            ([] ++ recC8 :: []) ⟨[], [], []⟩).1.skipped
    ∧ ((processRecords (fun _ => .ok ⟨false, Option.none⟩)
            ([] ++ recC8 :: []) ⟨[], [], []⟩).1.calls.all matchKey) = true :=
  dispatch_filters_nonmatching (fun _ => .ok ⟨false, Option.none⟩) [] [] recC8
    (.str "data-bucket") "other/x.json" ⟨[], [], []⟩ rfl rfl rfl (by decide)

/-! ## C9 — the diff of a listing with itself is empty -/

/-- C9: `compare_files` applied to the same listing on both sides returns
three empty sets. -/
theorem compare_files_self (l : Listing) :
    compare_files l l = (∅, ∅, ∅) := by
  refine Prod.ext ?_ (Prod.ext ?_ ?_) <;>
    simp [compare_files]

/-! ## C10 — an empty listing means no storage operations -/

/-- C10: whenever either fetched listing is empty — whether from a failed
fetch or a legitimately empty prefix, the run cannot tell — `main` returns
early having issued no data-object put or delete at all; only the log
object is written, and the return value is `None`. -/
theorem publish_no_ops_on_empty_listing (d : PubDeps) (henv : d.envOk = true)
    (h : d.website_files = [] ∨ d.s3_files = []) :
    publish_main d = .ok ⟨[], true, .none⟩ := by
  unfold publish_main
  rw [henv]
  have hemp : (d.website_files.isEmpty || d.s3_files.isEmpty) = true := by
    rcases h with h | h <;> simp [h]
  simp [hemp]

/-- Witness for C10 at a concrete run with an empty website listing and a
non-empty storage listing. -/
theorem publish_no_ops_on_empty_listing_witness :
    publish_main ⟨true, [], [("x", ⟨1, "Mon", "bls_data/x"⟩)], fun _ => .ok ()⟩ =
      .ok ⟨[], true, .none⟩ :=
  publish_no_ops_on_empty_listing _ rfl (Or.inl rfl)

end DataQuest
